import Mathlib

/-!
Verification development for the 2d basketball game. The simulation engine
(updateGameState), the shot controller state machine (aiming, staging,
firing, per-frame loop scheduling) and the commentary fallback handler are
embedded shallowly. Numbers are modelled as rationals. Comparisons of
Math.hypot against the ball radius are embedded by comparing squares (both
sides nonnegative), and the square root of the drag vector length in
onAimEnd is passed as an explicit parameter that theorems constrain by the
hypotheses characterizing a square root.
-/

namespace Basketball

/-- Two dimensional vector of rationals, used for positions, velocities and
drag endpoints. -/
structure Vec2 where
  x : ℚ
  y : ℚ
deriving DecidableEq

/-- GRAVITY = 0.4, added to the vertical velocity each tick. -/
def GRAVITY : ℚ := 2 / 5

/-- BOUNCE_DAMPENING = 0.7, the dampening factor for floor, backboard and
rim post bounces. -/
def BOUNCE_DAMPENING : ℚ := 7 / 10

/-- AIM_POWER_FACTOR = 0.15, scales the clamped drag vector into a staged
velocity. -/
def AIM_POWER_FACTOR : ℚ := 3 / 20

/-- MAX_AIM_POWER = 120, the clamp on the drag distance. -/
def MAX_AIM_POWER : ℚ := 120

/-- BALL_RADIUS = 20. -/
def BALL_RADIUS : ℚ := 20

/-- Hoop position offsets measured from the top right corner of the court
(HOOP_POS in the component). -/
def HOOP_POS : Vec2 := ⟨100, 200⟩

/-- BACKBOARD.height = 100. -/
def BACKBOARD_HEIGHT : ℚ := 100

/-- RIM.width = 60. -/
def RIM_WIDTH : ℚ := 60

/-- Court dimensions: window.innerWidth and window.innerHeight, passed as an
explicit parameter into every geometry dependent operation. -/
structure Court where
  width : ℚ
  height : ℚ
deriving DecidableEq

/-- RIM_Y_POS: the y coordinate of the rim line, HOOP_POS.y plus half the
backboard height, which is 250. -/
def RIM_Y_POS : ℚ := HOOP_POS.y + BACKBOARD_HEIGHT / 2

/-- RIM_X_START: near x bound of the rim. -/
def RIM_X_START (c : Court) : ℚ := c.width - HOOP_POS.x - RIM_WIDTH

/-- RIM_X_END: far x bound of the rim. -/
def RIM_X_END (c : Court) : ℚ := c.width - HOOP_POS.x

/-- BACKBOARD_X: the x plane of the backboard face. -/
def BACKBOARD_X (c : Court) : ℚ := c.width - HOOP_POS.x

/-- Explicit Euler integration at the top of updateGameState: the vertical
velocity gains GRAVITY, then the position gains the updated velocity.
Returns the pair of new position and new velocity. -/
def integrate (pos vel : Vec2) : Vec2 × Vec2 :=
  let v : Vec2 := ⟨vel.x, vel.y + GRAVITY⟩
  (⟨pos.x + v.x, pos.y + v.y⟩, v)

/-- Floor bounce: if the ball extends below the court floor, clamp it to the
floor, negate and dampen the vertical velocity, dampen the horizontal
velocity without a sign flip. -/
def floorBounce (c : Court) (pv : Vec2 × Vec2) : Vec2 × Vec2 :=
  if pv.1.y + BALL_RADIUS > c.height then
    (⟨pv.1.x, c.height - BALL_RADIUS⟩,
     ⟨pv.2.x * BOUNCE_DAMPENING, pv.2.y * -BOUNCE_DAMPENING⟩)
  else pv

/-- Wall bounce: if the ball extends past either horizontal bound, negate
the horizontal velocity (no dampening in the source) and clamp the x
coordinate to the violated bound. -/
def wallBounce (c : Court) (pv : Vec2 × Vec2) : Vec2 × Vec2 :=
  if pv.1.x + BALL_RADIUS > c.width ∨ pv.1.x - BALL_RADIUS < 0 then
    (⟨if pv.1.x - BALL_RADIUS < 0 then BALL_RADIUS else c.width - BALL_RADIUS, pv.1.y⟩,
     ⟨pv.2.x * -1, pv.2.y⟩)
  else pv

/-- Backboard collision: if the leading edge of the ball crosses the
backboard x plane while the ball y lies inside the vertical span of the
backboard, clamp the x coordinate to the backboard face and reflect plus
dampen the horizontal velocity. -/
def backboardBounce (c : Court) (pv : Vec2 × Vec2) : Vec2 × Vec2 :=
  if pv.1.x + BALL_RADIUS > BACKBOARD_X c ∧
      pv.1.y > HOOP_POS.y ∧ pv.1.y < HOOP_POS.y + BACKBOARD_HEIGHT then
    (⟨BACKBOARD_X c - BALL_RADIUS, pv.1.y⟩,
     ⟨pv.2.x * -BOUNCE_DAMPENING, pv.2.y⟩)
  else pv

/-- Embeds the source comparison Math.hypot(p.x - q.x, p.y - q.y) <
BALL_RADIUS by squaring both sides, which is equivalent because both are
nonnegative. -/
def nearRimPost (p q : Vec2) : Bool :=
  decide ((p.x - q.x) ^ 2 + (p.y - q.y) ^ 2 < BALL_RADIUS ^ 2)

/-- Rim post collision: if the ball center is within one radius of either
rim endpoint, reflect plus dampen the vertical velocity and dampen the
horizontal velocity; the position is not adjusted. -/
def rimPostBounce (c : Court) (pv : Vec2 × Vec2) : Vec2 × Vec2 :=
  if nearRimPost pv.1 ⟨RIM_X_START c, RIM_Y_POS⟩ ∨ nearRimPost pv.1 ⟨RIM_X_END c, RIM_Y_POS⟩ then
    (pv.1, ⟨pv.2.x * BOUNCE_DAMPENING, pv.2.y * -BOUNCE_DAMPENING⟩)
  else pv

/-- Position and velocity after integration, floor bounce and wall bounce,
which is the state the score test examines. -/
def postBounce (c : Court) (pos vel : Vec2) : Vec2 × Vec2 :=
  wallBounce c (floorBounce c (integrate pos vel))

/-- The above rim flag after a tick: set to true when the ball y after the
floor and wall bounces lies above the rim line, else kept. -/
def nextWasAboveRim (c : Court) (pos vel : Vec2) (war : Bool) : Bool :=
  if (postBounce c pos vel).1.y < RIM_Y_POS then true else war

/-- Score condition as written in the source: the above rim flag, moving
down, y strictly between RIM_Y_POS and RIM_Y_POS + 20, x strictly between
the rim x bounds. -/
def scoreCond (c : Court) (p v : Vec2) (war : Bool) : Bool :=
  war && decide (v.y > 0) && decide (p.y > RIM_Y_POS) && decide (p.y < RIM_Y_POS + 20) &&
    decide (p.x > RIM_X_START c) && decide (p.x < RIM_X_END c)

/-- Miss condition: fallen well below the court, or settled at near zero
speed while resting on or near the floor. -/
def missCond (c : Court) (p v : Vec2) : Bool :=
  decide (p.y > c.height + 100) ||
    (decide (|v.x| < 1 / 10) && decide (|v.y| < 1 / 10) &&
      decide (p.y > c.height - BALL_RADIUS - 1))

/-- Position and velocity after all bounce and collision handling, which is
the state the miss test examines. -/
def postCollide (c : Court) (pos vel : Vec2) : Vec2 × Vec2 :=
  rimPostBounce c (backboardBounce c (postBounce c pos vel))

/-- Outcome of one simulation tick. -/
inductive Outcome
  | scored
  | missed
  | cont
deriving DecidableEq

/-- Result of one simulation tick: the ball state committed to the signals,
the updated above rim flag, and the outcome. On scored and missed the
source returns before writing the integrated position and velocity back, so
the committed ball state equals the input. -/
structure StepResult where
  pos : Vec2
  vel : Vec2
  wasAboveRim : Bool
  outcome : Outcome
deriving DecidableEq

/-- One simulation tick, the body of updateGameState: integrate, floor and
wall bounces, update the above rim flag, score test (early return),
backboard and rim post collisions, miss test (early return), else commit
the new ball state. -/
def updateGameState (c : Court) (pos vel : Vec2) (war : Bool) : StepResult :=
  let pv := postBounce c pos vel
  let war1 := nextWasAboveRim c pos vel war
  if scoreCond c pv.1 pv.2 war1 then
    ⟨pos, vel, war1, Outcome.scored⟩
  else
    let pv2 := postCollide c pos vel
    if missCond c pv2.1 pv2.2 then ⟨pos, vel, war1, Outcome.missed⟩
    else ⟨pv2.1, pv2.2, war1, Outcome.cont⟩

/-- The game state value of the controller. -/
inductive GState
  | positioning
  | ready
  | aiming
  | shooting
  | scored
  | missed
deriving DecidableEq

/-- Keys the controller reacts to: the arrow keys in positioning, the keys
x and c in ready; anything else is other. -/
inductive Key
  | arrowUp
  | arrowDown
  | arrowLeft
  | arrowRight
  | keyX
  | keyC
  | other
deriving DecidableEq

/-- The controller state: the signals of the component together with the
private fields wasAboveRim and animationFrameId. The pending animation
frame is modelled by an id drawn from a counter; cancelAnimationFrame is
modelled by logging the cancelled id. Display only fields (confetti,
animation toggles) are omitted. -/
structure AppState where
  gameState : GState
  score : ℕ
  shots : ℕ
  stagedVelocity : Option Vec2
  ballPosition : Vec2
  ballVelocity : Vec2
  aimStartPos : Option Vec2
  aimCurrentPos : Option Vec2
  geminiMessage : String
  isLoadingGemini : Bool
  wasAboveRim : Bool
  animationFrameId : Option ℕ
  cancelledFrames : List ℕ
  nextFrameId : ℕ
deriving DecidableEq

/-- The initial component state. Frame ids start at 1 because browser frame
ids are positive, matching the truthiness test in startGameLoop. -/
def initialState (c : Court) : AppState :=
  { gameState := GState.positioning
    score := 0
    shots := 0
    stagedVelocity := none
    ballPosition := ⟨150, c.height - 150⟩
    ballVelocity := ⟨0, 0⟩
    aimStartPos := none
    aimCurrentPos := none
    geminiMessage := ""
    isLoadingGemini := false
    wasAboveRim := false
    animationFrameId := none
    cancelledFrames := []
    nextFrameId := 1 }

/-- startGameLoop: cancel a pending frame if any, then schedule a fresh
frame for the loop. -/
def startGameLoop (s : AppState) : AppState :=
  let s1 := match s.animationFrameId with
    | some id => { s with cancelledFrames := id :: s.cancelledFrames }
    | none => s
  { s1 with animationFrameId := some s1.nextFrameId, nextFrameId := s1.nextFrameId + 1 }

/-- fireShot: a no op without a staged velocity; otherwise count the shot,
commit the staged velocity to the ball, clear the staging and drag state,
clear the above rim flag, enter shooting and start the loop. -/
def fireShot (s : AppState) : AppState :=
  match s.stagedVelocity with
  | none => s
  | some velocity =>
    startGameLoop
      { s with
        shots := s.shots + 1
        ballVelocity := velocity
        stagedVelocity := none
        gameState := GState.shooting
        aimStartPos := none
        aimCurrentPos := none
        wasAboveRim := false }

/-- Arrow key movement in positioning, followed by the clamp of the ball
into the left half of the court. -/
def moveBall (c : Court) (p : Vec2) (k : Key) : Vec2 :=
  let q : Vec2 :=
    match k with
    | Key.arrowUp => ⟨p.x, p.y - 10⟩
    | Key.arrowDown => ⟨p.x, p.y + 10⟩
    | Key.arrowLeft => ⟨p.x - 10, p.y⟩
    | Key.arrowRight => ⟨p.x + 10, p.y⟩
    | _ => p
  ⟨max BALL_RADIUS (min q.x (c.width / 2 - BALL_RADIUS)),
   max BALL_RADIUS (min q.y (c.height - BALL_RADIUS))⟩

/-- onKeyDown: arrows reposition during positioning; x or c fire during
ready; everything else is ignored. -/
def onKeyDown (c : Court) (s : AppState) (k : Key) : AppState :=
  if s.gameState = GState.positioning then
    { s with ballPosition := moveBall c s.ballPosition k }
  else if s.gameState = GState.ready ∧ (k = Key.keyX ∨ k = Key.keyC) then
    fireShot s
  else s

/-- onAimStart: enter aiming and record the pointer position as both drag
start and drag current. -/
def onAimStart (s : AppState) (p : Vec2) : AppState :=
  { s with gameState := GState.aiming, aimStartPos := some p, aimCurrentPos := some p }

/-- onPointerDown: in positioning or ready, clear any previously staged
shot and begin aiming; otherwise ignored. -/
def onPointerDown (s : AppState) (p : Vec2) : AppState :=
  if s.gameState = GState.positioning ∨ s.gameState = GState.ready then
    onAimStart { s with stagedVelocity := none } p
  else s

/-- onPointerMove: while aiming, update the drag current point. -/
def onPointerMove (s : AppState) (p : Vec2) : AppState :=
  if s.gameState = GState.aiming then { s with aimCurrentPos := some p } else s

/-- Staged velocity computed at drag end from the recorded drag endpoints.
The parameter d models Math.sqrt(dx * dx + dy * dy); theorems about this
definition carry the hypotheses 0 ≤ d and d ^ 2 = dx ^ 2 + dy ^ 2 that
characterize the square root. A zero distance stages nothing. -/
def stagedFromDrag (a b : Vec2) (d : ℚ) : Option Vec2 :=
  let dx := b.x - a.x
  let dy := b.y - a.y
  if d = 0 then none
  else if d > MAX_AIM_POWER then
    some ⟨dx * (MAX_AIM_POWER / d) * AIM_POWER_FACTOR,
          dy * (MAX_AIM_POWER / d) * AIM_POWER_FACTOR⟩
  else
    some ⟨dx * AIM_POWER_FACTOR, dy * AIM_POWER_FACTOR⟩

/-- The staged velocity computed from the recorded aim signals. The source
reads the signals through non null assertions; they are always recorded
while aiming, and the fallthrough case stages nothing. -/
def stagedOfState (s : AppState) (d : ℚ) : Option Vec2 :=
  match s.aimStartPos, s.aimCurrentPos with
  | some a, some b => stagedFromDrag a b d
  | _, _ => none

/-- onAimEnd: stage the shot from the recorded drag endpoints and enter
ready; with a zero drag distance nothing is staged. -/
def onAimEnd (s : AppState) (d : ℚ) : AppState :=
  match stagedOfState s d with
  | none => { s with gameState := GState.ready }
  | some v => { s with stagedVelocity := some v, gameState := GState.ready }

/-- onPointerUp: while aiming, finish the drag; otherwise ignored. -/
def onPointerUp (s : AppState) (d : ℚ) : AppState :=
  if s.gameState = GState.aiming then onAimEnd s d else s

/-- resetShot: back to positioning with the ball at its start position, the
staging and the commentary message cleared. -/
def resetShot (c : Court) (s : AppState) : AppState :=
  { s with
    gameState := GState.positioning
    stagedVelocity := none
    ballPosition := ⟨150, c.height - 150⟩
    ballVelocity := ⟨0, 0⟩
    geminiMessage := "" }

/-- One animation frame callback: runs only when a frame is pending. It
performs one simulation tick; on scored it enters scored, counts the score
and starts the commentary request (loading set, message cleared); on
missed likewise without counting; on continue it commits the ball state
and reschedules while still shooting. -/
def tick (c : Court) (s : AppState) : AppState :=
  match s.animationFrameId with
  | none => s
  | some _ =>
    let r := updateGameState c s.ballPosition s.ballVelocity s.wasAboveRim
    match r.outcome with
    | Outcome.scored =>
      { s with
        wasAboveRim := r.wasAboveRim
        gameState := GState.scored
        score := s.score + 1
        isLoadingGemini := true
        geminiMessage := "" }
    | Outcome.missed =>
      { s with
        wasAboveRim := r.wasAboveRim
        gameState := GState.missed
        isLoadingGemini := true
        geminiMessage := "" }
    | Outcome.cont =>
      let s1 := { s with
        ballPosition := r.pos
        ballVelocity := r.vel
        wasAboveRim := r.wasAboveRim }
      if s1.gameState = GState.shooting then
        { s1 with animationFrameId := some s1.nextFrameId, nextFrameId := s1.nextFrameId + 1 }
      else s1

/-- Completion of the commentary request: the awaited service either
resolves with a message or rejects; on rejection the fixed fallback string
is shown; the finally clause always clears the loading flag. -/
def geminiResolve (s : AppState) (r : Except String String) : AppState :=
  match r with
  | Except.ok m => { s with geminiMessage := m, isLoadingGemini := false }
  | Except.error _ =>
    { s with geminiMessage := "Oops, Gemini is taking a timeout.", isLoadingGemini := false }

/-- fetchGeminiReaction from start to finish: set loading, clear the
message, await the collaborator (its result passed in as a value), then
apply the resolution including the finally clause. The function is total:
a rejection of the collaborator never escapes to the caller. -/
def fetchGeminiReaction (s : AppState) (r : Except String String) : AppState :=
  geminiResolve { s with isLoadingGemini := true, geminiMessage := "" } r

/-- Events the controller reacts to. The pointerUp event carries the
modelled square root of the recorded drag vector length; the gemini event
delivers the resolution of a pending commentary request. -/
inductive Ev
  | key (k : Key)
  | pointerDown (p : Vec2)
  | pointerMove (p : Vec2)
  | pointerUp (d : ℚ)
  | frame
  | gemini (r : Except String String)
  | reset

/-- The event dispatch of the controller. -/
def handleEvent (c : Court) (s : AppState) : Ev → AppState
  | Ev.key k => onKeyDown c s k
  | Ev.pointerDown p => onPointerDown s p
  | Ev.pointerMove p => onPointerMove s p
  | Ev.pointerUp d => onPointerUp s d
  | Ev.frame => tick c s
  | Ev.gemini r => geminiResolve s r
  | Ev.reset => resetShot c s

/-- States reachable from the initial state under the event dispatch. -/
inductive Reachable (c : Court) : AppState → Prop
  | init : Reachable c (initialState c)
  | step {s : AppState} (h : Reachable c s) (e : Ev) : Reachable c (handleEvent c s e)

theorem updateGameState_scored_iff (c : Court) (pos vel : Vec2) (war : Bool) :
    (updateGameState c pos vel war).outcome = Outcome.scored ↔
      scoreCond c (postBounce c pos vel).1 (postBounce c pos vel).2
        (nextWasAboveRim c pos vel war) = true := by
  simp only [updateGameState]
  split_ifs with hs hm
  · simp [hs]
  · simp [hs]
  · simp [hs]

theorem updateGameState_wasAboveRim_eq (c : Court) (pos vel : Vec2) (war : Bool) :
    (updateGameState c pos vel war).wasAboveRim = nextWasAboveRim c pos vel war := by
  simp only [updateGameState]
  split_ifs <;> rfl

theorem nextWasAboveRim_true (c : Court) (pos vel : Vec2) :
    nextWasAboveRim c pos vel true = true := by
  unfold nextWasAboveRim
  split_ifs <;> rfl

theorem wallBounce_vel_y (c : Court) (pv : Vec2 × Vec2) :
    (wallBounce c pv).2.y = pv.2.y := by
  unfold wallBounce
  split_ifs <;> rfl

/-- C1: the spec places the lower band edge inside the scoring band. On the
code the score test compares strictly, so the tick outcome is scored
exactly when, after integration and the floor and wall bounces, the above
rim flag holds, the ball moves downward, the ball y is strictly between
RIM_Y_POS and RIM_Y_POS + 20 (a ball at exactly RIM_Y_POS does not score,
nor at RIM_Y_POS + 20), and the ball x is strictly between the rim x
bounds. -/
theorem score_band_open (c : Court) (pos vel : Vec2) (war : Bool) :
    (updateGameState c pos vel war).outcome = Outcome.scored ↔
      (nextWasAboveRim c pos vel war = true ∧
       0 < (postBounce c pos vel).2.y ∧
       RIM_Y_POS < (postBounce c pos vel).1.y ∧
       (postBounce c pos vel).1.y < RIM_Y_POS + 20 ∧
       RIM_X_START c < (postBounce c pos vel).1.x ∧
       (postBounce c pos vel).1.x < RIM_X_END c) := by
  rw [updateGameState_scored_iff]
  simp [scoreCond, Bool.and_eq_true, decide_eq_true_eq, and_assoc]

/-- C1 counterexample: a concrete tick whose ball, after integration, sits
exactly at the lower band edge RIM_Y_POS while moving downward with the
above rim flag set and x strictly inside the rim bounds, yet the outcome
is not scored. -/
theorem score_band_lower_edge_cex :
    (postBounce ⟨1000, 800⟩ ⟨870, 245⟩ ⟨0, 23 / 5⟩).1.y = RIM_Y_POS ∧
    0 < (postBounce ⟨1000, 800⟩ ⟨870, 245⟩ ⟨0, 23 / 5⟩).2.y ∧
    RIM_X_START ⟨1000, 800⟩ < (postBounce ⟨1000, 800⟩ ⟨870, 245⟩ ⟨0, 23 / 5⟩).1.x ∧
    (postBounce ⟨1000, 800⟩ ⟨870, 245⟩ ⟨0, 23 / 5⟩).1.x < RIM_X_END ⟨1000, 800⟩ ∧
    (updateGameState ⟨1000, 800⟩ ⟨870, 245⟩ ⟨0, 23 / 5⟩ true).outcome ≠ Outcome.scored := by
  norm_num [updateGameState, postBounce, postCollide, integrate, floorBounce, wallBounce,
    backboardBounce, rimPostBounce, nearRimPost, nextWasAboveRim, scoreCond, missCond,
    GRAVITY, BALL_RADIUS, BOUNCE_DAMPENING, RIM_Y_POS, RIM_X_START, RIM_X_END, BACKBOARD_X,
    HOOP_POS, BACKBOARD_HEIGHT, RIM_WIDTH]
  decide

/-- C3 counterexample: a concrete tick whose input ball moves upward
(velocity.y equals minus one fifth), has the above rim flag set and sits
inside the score band y range and the rim x range, yet the outcome is
scored: gravity turns the small upward velocity into a downward one before
the score test runs. -/
theorem upward_input_scores_cex :
    ((-1 : ℚ) / 5 < 0) ∧
    RIM_Y_POS ≤ 251 ∧ (251 : ℚ) < RIM_Y_POS + 20 ∧
    RIM_X_START ⟨1000, 800⟩ < 860 ∧ (860 : ℚ) < RIM_X_END ⟨1000, 800⟩ ∧
    (updateGameState ⟨1000, 800⟩ ⟨860, 251⟩ ⟨0, -1 / 5⟩ true).outcome = Outcome.scored := by
  norm_num [updateGameState, postBounce, postCollide, integrate, floorBounce, wallBounce,
    backboardBounce, rimPostBounce, nearRimPost, nextWasAboveRim, scoreCond, missCond,
    GRAVITY, BALL_RADIUS, BOUNCE_DAMPENING, RIM_Y_POS, RIM_X_START, RIM_X_END, BACKBOARD_X,
    HOOP_POS, BACKBOARD_HEIGHT, RIM_WIDTH]

/-- C3 amended: an upward moving ball is not scored by the tick provided it
is still moving upward after the gravity update (velocity.y plus GRAVITY
at most zero) and the tick does not trigger a floor bounce, which could
flip the vertical velocity downward within the same tick. The position
hypotheses keep the ball of the original statement inside the score band
and rim x range; they are not needed for the conclusion. -/
theorem no_score_moving_up (c : Court) (pos vel : Vec2)
    (hup : vel.y + GRAVITY ≤ 0)
    (hfloor : (integrate pos vel).1.y + BALL_RADIUS ≤ c.height)
    (hy1 : RIM_Y_POS ≤ pos.y) (hy2 : pos.y < RIM_Y_POS + 20)
    (hx1 : RIM_X_START c < pos.x) (hx2 : pos.x < RIM_X_END c) :
    (updateGameState c pos vel true).outcome ≠ Outcome.scored := by
  simp only [Ne, updateGameState_scored_iff]
  have hnof : floorBounce c (integrate pos vel) = integrate pos vel := by
    unfold floorBounce
    rw [if_neg (by linarith)]
  have hvy : (postBounce c pos vel).2.y = vel.y + GRAVITY := by
    unfold postBounce
    rw [hnof, wallBounce_vel_y]
    rfl
  simp only [scoreCond, Bool.and_eq_true, decide_eq_true_eq]
  intro h
  have := h.1.1.1.1.2
  rw [hvy] at this
  linarith

/-- C3 witness: a concrete ball inside the score band and rim x range,
moving upward fast enough to remain upward after gravity, is not scored. -/
theorem no_score_moving_up_witness :
    (updateGameState ⟨1000, 800⟩ ⟨870, 251⟩ ⟨0, -1⟩ true).outcome ≠ Outcome.scored :=
  no_score_moving_up ⟨1000, 800⟩ ⟨870, 251⟩ ⟨0, -1⟩
    (by norm_num [GRAVITY])
    (by norm_num [integrate, GRAVITY, BALL_RADIUS])
    (by norm_num [RIM_Y_POS, HOOP_POS, BACKBOARD_HEIGHT])
    (by norm_num [RIM_Y_POS, HOOP_POS, BACKBOARD_HEIGHT])
    (by norm_num [RIM_X_START, HOOP_POS, RIM_WIDTH])
    (by norm_num [RIM_X_END, HOOP_POS])

/-- C9: when the score test does not fire, the tick outcome is missed
exactly when, after integration and all bounce handling, the ball either
fell well below the court or settled at near zero speed on or near the
floor, and the outcome is continue exactly otherwise. -/
theorem miss_rule_exact (c : Court) (pos vel : Vec2) (war : Bool)
    (h : scoreCond c (postBounce c pos vel).1 (postBounce c pos vel).2
      (nextWasAboveRim c pos vel war) = false) :
    ((updateGameState c pos vel war).outcome = Outcome.missed ↔
      missCond c (postCollide c pos vel).1 (postCollide c pos vel).2 = true) ∧
    ((updateGameState c pos vel war).outcome = Outcome.cont ↔
      missCond c (postCollide c pos vel).1 (postCollide c pos vel).2 = false) := by
  simp only [updateGameState]
  rw [if_neg (by simp [h])]
  split_ifs with hm
  · simp [hm]
  · simp_all

/-- C9 witness: a concrete ball in mid air with the score test silent; the
miss condition is false and the outcome is continue. -/
theorem miss_rule_exact_witness :
    ((updateGameState ⟨1000, 800⟩ ⟨100, 100⟩ ⟨0, 0⟩ false).outcome = Outcome.missed ↔
      missCond ⟨1000, 800⟩ (postCollide ⟨1000, 800⟩ ⟨100, 100⟩ ⟨0, 0⟩).1
        (postCollide ⟨1000, 800⟩ ⟨100, 100⟩ ⟨0, 0⟩).2 = true) ∧
    ((updateGameState ⟨1000, 800⟩ ⟨100, 100⟩ ⟨0, 0⟩ false).outcome = Outcome.cont ↔
      missCond ⟨1000, 800⟩ (postCollide ⟨1000, 800⟩ ⟨100, 100⟩ ⟨0, 0⟩).1
        (postCollide ⟨1000, 800⟩ ⟨100, 100⟩ ⟨0, 0⟩).2 = false) :=
  miss_rule_exact ⟨1000, 800⟩ ⟨100, 100⟩ ⟨0, 0⟩ false
    (by norm_num [scoreCond, postBounce, integrate, floorBounce, wallBounce, nextWasAboveRim,
      GRAVITY, BALL_RADIUS, RIM_Y_POS, HOOP_POS, BACKBOARD_HEIGHT])

/-- C10: on a scored or missed tick the committed ball state equals the
input ball state: the freshly integrated and bounce adjusted position and
velocity are committed only on a continue outcome, where they equal the
state after all collision handling. -/
theorem outcome_frame_effect (c : Court) (pos vel : Vec2) (war : Bool) :
    (((updateGameState c pos vel war).outcome = Outcome.scored ∨
      (updateGameState c pos vel war).outcome = Outcome.missed) →
      (updateGameState c pos vel war).pos = pos ∧ (updateGameState c pos vel war).vel = vel) ∧
    ((updateGameState c pos vel war).outcome = Outcome.cont →
      (updateGameState c pos vel war).pos = (postCollide c pos vel).1 ∧
      (updateGameState c pos vel war).vel = (postCollide c pos vel).2) := by
  simp only [updateGameState]
  split_ifs <;> simp

/-- C10 witness: on the concrete scored tick of the development the ball
signals keep their pre tick values. -/
theorem outcome_frame_effect_witness :
    (updateGameState ⟨1000, 800⟩ ⟨860, 251⟩ ⟨0, -1 / 5⟩ true).pos = ⟨860, 251⟩ ∧
    (updateGameState ⟨1000, 800⟩ ⟨860, 251⟩ ⟨0, -1 / 5⟩ true).vel = ⟨0, -1 / 5⟩ :=
  (outcome_frame_effect ⟨1000, 800⟩ ⟨860, 251⟩ ⟨0, -1 / 5⟩ true).1
    (Or.inl (by norm_num [updateGameState, postBounce, postCollide, integrate, floorBounce,
      wallBounce, backboardBounce, rimPostBounce, nearRimPost, nextWasAboveRim, scoreCond,
      missCond, GRAVITY, BALL_RADIUS, BOUNCE_DAMPENING, RIM_Y_POS, RIM_X_START, RIM_X_END,
      BACKBOARD_X, HOOP_POS, BACKBOARD_HEIGHT, RIM_WIDTH]))

theorem abs_damp_le (a : ℚ) : |a * BOUNCE_DAMPENING| ≤ |a| := by
  rw [abs_mul]
  refine mul_le_of_le_one_right (abs_nonneg a) ?_
  rw [BOUNCE_DAMPENING, abs_of_pos (by norm_num)]
  norm_num

theorem abs_damp_lt (a : ℚ) (h : a ≠ 0) : |a * BOUNCE_DAMPENING| < |a| := by
  rw [abs_mul]
  refine mul_lt_of_lt_one_right (abs_pos.mpr h) ?_
  rw [BOUNCE_DAMPENING, abs_of_pos (by norm_num)]
  norm_num

theorem abs_neg_damp_le (a : ℚ) : |a * -BOUNCE_DAMPENING| ≤ |a| := by
  rw [mul_neg, abs_neg]
  exact abs_damp_le a

theorem abs_neg_damp_lt (a : ℚ) (h : a ≠ 0) : |a * -BOUNCE_DAMPENING| < |a| := by
  rw [mul_neg, abs_neg]
  exact abs_damp_lt a h

/-- C2 counterexample: a concrete wall bounce. The source negates the
horizontal velocity without applying any dampening factor, so the post
bounce magnitude equals the pre bounce magnitude and does not strictly
decrease although the component is nonzero. -/
theorem wall_bounce_undamped_cex :
    (wallBounce ⟨1000, 800⟩ (⟨995, 300⟩, ⟨5, 2⟩)).2.x = -5 ∧
    |(wallBounce ⟨1000, 800⟩ (⟨995, 300⟩, ⟨5, 2⟩)).2.x| = |(5 : ℚ)| ∧
    ¬ |(wallBounce ⟨1000, 800⟩ (⟨995, 300⟩, ⟨5, 2⟩)).2.x| < |(5 : ℚ)| ∧ (5 : ℚ) ≠ 0 := by
  norm_num [wallBounce, BALL_RADIUS]

/-- C2 amended: the dampening factor is strictly inside the unit interval,
and every floor, backboard and rim post bounce weakly reduces and, on a
nonzero component, strictly reduces the magnitude of each affected
velocity component; the wall bounce only negates the horizontal velocity,
so its post bounce magnitude equals (and hence does not exceed) the pre
bounce magnitude, but it does not strictly decrease. -/
theorem bounce_dampening_mono :
    (0 < BOUNCE_DAMPENING ∧ BOUNCE_DAMPENING < 1) ∧
    (∀ (c : Court) (pv : Vec2 × Vec2), pv.1.y + BALL_RADIUS > c.height →
      |(floorBounce c pv).2.y| ≤ |pv.2.y| ∧ |(floorBounce c pv).2.x| ≤ |pv.2.x| ∧
      (pv.2.y ≠ 0 → |(floorBounce c pv).2.y| < |pv.2.y|) ∧
      (pv.2.x ≠ 0 → |(floorBounce c pv).2.x| < |pv.2.x|)) ∧
    (∀ (c : Court) (pv : Vec2 × Vec2), pv.1.x + BALL_RADIUS > c.width ∨ pv.1.x - BALL_RADIUS < 0 →
      |(wallBounce c pv).2.x| = |pv.2.x|) ∧
    (∀ (c : Court) (pv : Vec2 × Vec2),
      pv.1.x + BALL_RADIUS > BACKBOARD_X c ∧ pv.1.y > HOOP_POS.y ∧
        pv.1.y < HOOP_POS.y + BACKBOARD_HEIGHT →
      |(backboardBounce c pv).2.x| ≤ |pv.2.x| ∧
      (pv.2.x ≠ 0 → |(backboardBounce c pv).2.x| < |pv.2.x|)) ∧
    (∀ (c : Court) (pv : Vec2 × Vec2),
      nearRimPost pv.1 ⟨RIM_X_START c, RIM_Y_POS⟩ ∨ nearRimPost pv.1 ⟨RIM_X_END c, RIM_Y_POS⟩ →
      |(rimPostBounce c pv).2.y| ≤ |pv.2.y| ∧ |(rimPostBounce c pv).2.x| ≤ |pv.2.x| ∧
      (pv.2.y ≠ 0 → |(rimPostBounce c pv).2.y| < |pv.2.y|) ∧
      (pv.2.x ≠ 0 → |(rimPostBounce c pv).2.x| < |pv.2.x|)) := by
  refine ⟨⟨by norm_num [BOUNCE_DAMPENING], by norm_num [BOUNCE_DAMPENING]⟩, ?_, ?_, ?_, ?_⟩
  · intro c pv h
    unfold floorBounce
    rw [if_pos h]
    exact ⟨abs_neg_damp_le _, abs_damp_le _,
      fun hy => abs_neg_damp_lt _ hy, fun hx => abs_damp_lt _ hx⟩
  · intro c pv h
    unfold wallBounce
    rw [if_pos h]
    simp [mul_neg_one, abs_neg]
  · intro c pv h
    unfold backboardBounce
    rw [if_pos h]
    exact ⟨abs_neg_damp_le _, fun hx => abs_neg_damp_lt _ hx⟩
  · intro c pv h
    unfold rimPostBounce
    rw [if_pos h]
    exact ⟨abs_neg_damp_le _, abs_damp_le _,
      fun hy => abs_neg_damp_lt _ hy, fun hx => abs_damp_lt _ hx⟩

/-- C2 witness: concrete instances of each phase of the amended statement,
one bounce of every kind at explicit inputs. -/
theorem bounce_dampening_mono_witness :
    (|(floorBounce ⟨1000, 800⟩ (⟨500, 790⟩, ⟨3, 6⟩)).2.y| < |(6 : ℚ)| ∧
     |(floorBounce ⟨1000, 800⟩ (⟨500, 790⟩, ⟨3, 6⟩)).2.x| < |(3 : ℚ)|) ∧
    |(wallBounce ⟨1000, 800⟩ (⟨995, 300⟩, ⟨5, 2⟩)).2.x| = |(5 : ℚ)| ∧
    |(backboardBounce ⟨1000, 800⟩ (⟨890, 250⟩, ⟨4, 1⟩)).2.x| < |(4 : ℚ)| ∧
    |(rimPostBounce ⟨1000, 800⟩ (⟨845, 255⟩, ⟨2, 3⟩)).2.y| < |(3 : ℚ)| := by
  have h1 := (bounce_dampening_mono.2.1 ⟨1000, 800⟩ (⟨500, 790⟩, ⟨3, 6⟩)
    (by norm_num [BALL_RADIUS]))
  have h2 := bounce_dampening_mono.2.2.1 ⟨1000, 800⟩ (⟨995, 300⟩, ⟨5, 2⟩)
    (by norm_num [BALL_RADIUS])
  have h3 := bounce_dampening_mono.2.2.2.1 ⟨1000, 800⟩ (⟨890, 250⟩, ⟨4, 1⟩)
    (by norm_num [BALL_RADIUS, BACKBOARD_X, HOOP_POS, BACKBOARD_HEIGHT])
  have h4 := bounce_dampening_mono.2.2.2.2 ⟨1000, 800⟩ (⟨845, 255⟩, ⟨2, 3⟩)
    (by norm_num [nearRimPost, RIM_X_START, RIM_X_END, RIM_Y_POS, HOOP_POS,
      BACKBOARD_HEIGHT, RIM_WIDTH, BALL_RADIUS])
  exact ⟨⟨h1.2.2.1 (by norm_num), h1.2.2.2 (by norm_num)⟩, h2,
    h3.2 (by norm_num), h4.2.2.1 (by norm_num)⟩

/-- C5: with a nonzero drag, drag end stages exactly the drag vector
rescaled to length min of the drag distance and MAX_AIM_POWER, multiplied
by AIM_POWER_FACTOR: the staged squared speed equals the square of
AIM_POWER_FACTOR times the clamped distance, the direction is preserved by
a positive scalar, and for any distance at least MAX_AIM_POWER (such as
1000) the staged squared speed equals the square of MAX_AIM_POWER times
AIM_POWER_FACTOR, independent of further distance increases. The parameter
d is the drag distance, constrained to be the square root of the squared
drag vector length. -/
theorem staged_velocity_clamp (a b : Vec2) (d : ℚ)
    (hd0 : 0 ≤ d) (hd : d ^ 2 = (b.x - a.x) ^ 2 + (b.y - a.y) ^ 2) (hne : d ≠ 0) :
    ∃ v : Vec2, stagedFromDrag a b d = some v ∧
      v.x ^ 2 + v.y ^ 2 = (AIM_POWER_FACTOR * min d MAX_AIM_POWER) ^ 2 ∧
      (∃ t : ℚ, 0 < t ∧ v.x = t * (b.x - a.x) ∧ v.y = t * (b.y - a.y)) ∧
      (MAX_AIM_POWER ≤ d → v.x ^ 2 + v.y ^ 2 = (MAX_AIM_POWER * AIM_POWER_FACTOR) ^ 2) := by
  have hdpos : 0 < d := lt_of_le_of_ne hd0 (Ne.symm hne)
  unfold stagedFromDrag
  rw [if_neg hne]
  by_cases hgt : d > MAX_AIM_POWER
  · rw [if_pos hgt]
    have hmin : min d MAX_AIM_POWER = MAX_AIM_POWER := min_eq_right (le_of_lt hgt)
    have hspeed : ((b.x - a.x) * (MAX_AIM_POWER / d) * AIM_POWER_FACTOR) ^ 2 +
        ((b.y - a.y) * (MAX_AIM_POWER / d) * AIM_POWER_FACTOR) ^ 2 =
        (AIM_POWER_FACTOR * MAX_AIM_POWER) ^ 2 := by
      have hexp : ((b.x - a.x) * (MAX_AIM_POWER / d) * AIM_POWER_FACTOR) ^ 2 +
          ((b.y - a.y) * (MAX_AIM_POWER / d) * AIM_POWER_FACTOR) ^ 2 =
          (MAX_AIM_POWER / d * AIM_POWER_FACTOR) ^ 2 *
            ((b.x - a.x) ^ 2 + (b.y - a.y) ^ 2) := by ring
      rw [hexp, ← hd]
      field_simp
      ring
    refine ⟨_, rfl, ?_, ⟨MAX_AIM_POWER / d * AIM_POWER_FACTOR, ?_, by ring, by ring⟩, ?_⟩
    · rw [hmin]
      exact hspeed
    · have : (0 : ℚ) < MAX_AIM_POWER / d := by
        apply div_pos (by norm_num [MAX_AIM_POWER]) hdpos
      have hF : (0 : ℚ) < AIM_POWER_FACTOR := by norm_num [AIM_POWER_FACTOR]
      positivity
    · intro
      rw [hspeed]
      ring
  · rw [if_neg hgt]
    have hle : d ≤ MAX_AIM_POWER := not_lt.mp hgt
    have hmin : min d MAX_AIM_POWER = d := min_eq_left hle
    have hspeed : ((b.x - a.x) * AIM_POWER_FACTOR) ^ 2 + ((b.y - a.y) * AIM_POWER_FACTOR) ^ 2 =
        (AIM_POWER_FACTOR * d) ^ 2 := by
      linear_combination AIM_POWER_FACTOR ^ 2 * hd.symm
    refine ⟨_, rfl, ?_, ⟨AIM_POWER_FACTOR, by norm_num [AIM_POWER_FACTOR], by ring, by ring⟩, ?_⟩
    · rw [hmin]
      exact hspeed
    · intro hge
      have : d = MAX_AIM_POWER := le_antisymm hle hge
      rw [hspeed, this]
      ring

/-- C5 witness: a drag of distance exactly 1000 (a concrete 600 by 800
vector) stages a velocity whose squared speed equals the square of
MAX_AIM_POWER times AIM_POWER_FACTOR. -/
theorem staged_velocity_clamp_witness :
    ∃ v : Vec2, stagedFromDrag ⟨0, 0⟩ ⟨600, 800⟩ 1000 = some v ∧
      v.x ^ 2 + v.y ^ 2 = (AIM_POWER_FACTOR * min 1000 MAX_AIM_POWER) ^ 2 ∧
      (∃ t : ℚ, 0 < t ∧ v.x = t * ((600 : ℚ) - 0) ∧ v.y = t * ((800 : ℚ) - 0)) ∧
      (MAX_AIM_POWER ≤ 1000 → v.x ^ 2 + v.y ^ 2 = (MAX_AIM_POWER * AIM_POWER_FACTOR) ^ 2) :=
  staged_velocity_clamp ⟨0, 0⟩ ⟨600, 800⟩ 1000 (by norm_num) (by norm_num) (by norm_num)

theorem flag_clash {b : Bool} {P : Prop} (ht : b = true) (hf : b = false) : P :=
  Bool.noConfusion (ht.symm.trans hf)

theorem startGameLoop_wasAboveRim (s : AppState) :
    (startGameLoop s).wasAboveRim = s.wasAboveRim := by
  unfold startGameLoop
  rcases h : s.animationFrameId with _ | id <;> simp [h]

theorem startGameLoop_gameState (s : AppState) :
    (startGameLoop s).gameState = s.gameState := by
  unfold startGameLoop
  rcases h : s.animationFrameId with _ | id <;> simp [h]

theorem startGameLoop_stagedVelocity (s : AppState) :
    (startGameLoop s).stagedVelocity = s.stagedVelocity := by
  unfold startGameLoop
  rcases h : s.animationFrameId with _ | id <;> simp [h]

theorem fireShot_none (s : AppState) (h : s.stagedVelocity = none) : fireShot s = s := by
  unfold fireShot
  rw [h]

theorem onAimEnd_gameState (s : AppState) (d : ℚ) :
    (onAimEnd s d).gameState = GState.ready := by
  unfold onAimEnd
  split <;> rfl

theorem onAimEnd_wasAboveRim (s : AppState) (d : ℚ) :
    (onAimEnd s d).wasAboveRim = s.wasAboveRim := by
  unfold onAimEnd
  split <;> rfl

theorem tick_stagedVelocity (c : Court) (s : AppState) :
    (tick c s).stagedVelocity = s.stagedVelocity := by
  simp only [tick]
  split
  · rfl
  · split
    · rfl
    · rfl
    · split_ifs <;> rfl

theorem tick_gameState_aiming (c : Court) (s : AppState)
    (h : (tick c s).gameState = GState.aiming) : s.gameState = GState.aiming := by
  revert h
  simp only [tick]
  split
  · exact fun h => h
  · split
    · intro h; cases h
    · intro h; cases h
    · split_ifs <;> exact fun h => h

theorem tick_wasAboveRim_true (c : Court) (s : AppState) (h : s.wasAboveRim = true) :
    (tick c s).wasAboveRim = true := by
  have hkeep : (updateGameState c s.ballPosition s.ballVelocity s.wasAboveRim).wasAboveRim = true := by
    rw [updateGameState_wasAboveRim_eq, h, nextWasAboveRim_true]
  simp only [tick]
  split
  · exact h
  · split
    · exact hkeep
    · exact hkeep
    · split_ifs <;> exact hkeep

/-- Invariant of the controller: every reachable aiming state has no staged
velocity, because aiming is only entered through pointer down, which clears
the staging, and no aiming event writes it. -/
theorem aiming_staged_none {c : Court} {s : AppState} (h : Reachable c s) :
    s.gameState = GState.aiming → s.stagedVelocity = none := by
  induction h with
  | init => intro hg; simp [initialState] at hg
  | step hs e ih =>
    rename_i t
    cases e with
    | key k =>
      intro hg
      replace hg : (onKeyDown c t k).gameState = GState.aiming := hg
      show (onKeyDown c t k).stagedVelocity = none
      unfold onKeyDown at hg ⊢
      split_ifs at hg ⊢ with h1 h2
      · replace hg : t.gameState = GState.aiming := hg
        rw [h1] at hg
        cases hg
      · rcases hsv : t.stagedVelocity with _ | v
        · rw [fireShot_none t hsv] at hg ⊢
          exact hsv
        · unfold fireShot at hg
          rw [hsv, startGameLoop_gameState] at hg
          replace hg : GState.shooting = GState.aiming := hg
          cases hg
      · exact ih hg
    | pointerDown p =>
      intro hg
      replace hg : (onPointerDown t p).gameState = GState.aiming := hg
      show (onPointerDown t p).stagedVelocity = none
      unfold onPointerDown at hg ⊢
      split_ifs at hg ⊢ with h1
      · rfl
      · exact ih hg
    | pointerMove p =>
      intro hg
      replace hg : (onPointerMove t p).gameState = GState.aiming := hg
      show (onPointerMove t p).stagedVelocity = none
      unfold onPointerMove at hg ⊢
      split_ifs at hg ⊢ with h1
      · exact ih h1
      · exact ih hg
    | pointerUp d =>
      intro hg
      replace hg : (onPointerUp t d).gameState = GState.aiming := hg
      show (onPointerUp t d).stagedVelocity = none
      unfold onPointerUp at hg ⊢
      split_ifs at hg ⊢ with h1
      · rw [onAimEnd_gameState] at hg
        cases hg
      · exact ih hg
    | frame =>
      intro hg
      replace hg : (tick c t).gameState = GState.aiming := hg
      show (tick c t).stagedVelocity = none
      rw [tick_stagedVelocity]
      exact ih (tick_gameState_aiming c t hg)
    | gemini r =>
      intro hg
      replace hg : (geminiResolve t r).gameState = GState.aiming := hg
      show (geminiResolve t r).stagedVelocity = none
      rcases r with m | err
      · exact ih hg
      · exact ih hg
    | reset =>
      intro hg
      replace hg : GState.positioning = GState.aiming := hg
      cases hg

/-- C6: a drag end in any reachable aiming state whose recorded start point
equals its recorded end point (drag distance zero) enters ready with no
staged velocity, and a subsequent fire request in that state is a no op:
the whole state, so in particular the counters, the ball position and the
ball velocity, is unchanged and the state stays ready. -/
theorem zero_drag_release_noop {c : Court} {s : AppState} (h : Reachable c s)
    (ha : s.gameState = GState.aiming) (heq : s.aimStartPos = s.aimCurrentPos) :
    (onPointerUp s 0).gameState = GState.ready ∧
    (onPointerUp s 0).stagedVelocity = none ∧
    fireShot (onPointerUp s 0) = onPointerUp s 0 := by
  have hstage : s.stagedVelocity = none := aiming_staged_none h ha
  have hready : (onPointerUp s 0).gameState = GState.ready := by
    unfold onPointerUp
    rw [if_pos ha, onAimEnd_gameState]
  have hnone : (onPointerUp s 0).stagedVelocity = none := by
    have hzero : stagedOfState s 0 = none := by
      unfold stagedOfState
      rcases hsa : s.aimStartPos with _ | a
      · rfl
      · rcases hsc : s.aimCurrentPos with _ | b
        · rfl
        · rw [hsa, hsc] at heq
          have hab : a = b := by injection heq
          subst hab
          show stagedFromDrag a a 0 = none
          unfold stagedFromDrag
          rw [if_pos rfl]
    unfold onPointerUp
    rw [if_pos ha]
    unfold onAimEnd
    rw [hzero]
    exact hstage
  exact ⟨hready, hnone, fireShot_none _ hnone⟩

/-- C6 witness: from the initial state, a pointer down enters aiming with
coinciding drag endpoints; releasing with zero drag distance enters ready,
stages nothing, and a fire request leaves the state untouched. -/
theorem zero_drag_release_noop_witness :
    (onPointerUp (handleEvent ⟨1000, 800⟩ (initialState ⟨1000, 800⟩)
        (Ev.pointerDown ⟨300, 400⟩)) 0).gameState = GState.ready ∧
    (onPointerUp (handleEvent ⟨1000, 800⟩ (initialState ⟨1000, 800⟩)
        (Ev.pointerDown ⟨300, 400⟩)) 0).stagedVelocity = none ∧
    fireShot (onPointerUp (handleEvent ⟨1000, 800⟩ (initialState ⟨1000, 800⟩)
        (Ev.pointerDown ⟨300, 400⟩)) 0) =
      onPointerUp (handleEvent ⟨1000, 800⟩ (initialState ⟨1000, 800⟩)
        (Ev.pointerDown ⟨300, 400⟩)) 0 :=
  zero_drag_release_noop
    (Reachable.step Reachable.init (Ev.pointerDown ⟨300, 400⟩)) rfl rfl

/-- C7: firing with a staged velocity clears the above rim flag, counts
exactly one more shot, moves the staged velocity into the ball velocity and
clears the staging, enters shooting, cancels any previously scheduled
animation frame and schedules a fresh frame for the new loop. -/
theorem fire_commits_shot (s : AppState) (v : Vec2) (h : s.stagedVelocity = some v) :
    (fireShot s).wasAboveRim = false ∧
    (fireShot s).shots = s.shots + 1 ∧
    (fireShot s).ballVelocity = v ∧
    (fireShot s).stagedVelocity = none ∧
    (fireShot s).gameState = GState.shooting ∧
    (∀ id, s.animationFrameId = some id → id ∈ (fireShot s).cancelledFrames) ∧
    (fireShot s).animationFrameId = some s.nextFrameId := by
  unfold fireShot
  rw [h]
  unfold startGameLoop
  rcases hf : s.animationFrameId with _ | id <;> simp [hf]

/-- C7 witness: a concrete ready state with a staged velocity and a pending
frame number 1; firing counts the shot, commits the velocity, enters
shooting, cancels frame 1 and schedules frame 2. -/
theorem fire_commits_shot_witness :
    (fireShot { initialState ⟨1000, 800⟩ with
        gameState := GState.ready
        stagedVelocity := some ⟨3, -9⟩
        animationFrameId := some 1
        nextFrameId := 2 }).wasAboveRim = false ∧
    (fireShot { initialState ⟨1000, 800⟩ with
        gameState := GState.ready
        stagedVelocity := some ⟨3, -9⟩
        animationFrameId := some 1
        nextFrameId := 2 }).shots =
      ({ initialState ⟨1000, 800⟩ with
        gameState := GState.ready
        stagedVelocity := some ⟨3, -9⟩
        animationFrameId := some 1
        nextFrameId := 2 } : AppState).shots + 1 ∧
    (fireShot { initialState ⟨1000, 800⟩ with
        gameState := GState.ready
        stagedVelocity := some ⟨3, -9⟩
        animationFrameId := some 1
        nextFrameId := 2 }).ballVelocity = ⟨3, -9⟩ ∧
    (fireShot { initialState ⟨1000, 800⟩ with
        gameState := GState.ready
        stagedVelocity := some ⟨3, -9⟩
        animationFrameId := some 1
        nextFrameId := 2 }).stagedVelocity = none ∧
    (fireShot { initialState ⟨1000, 800⟩ with
        gameState := GState.ready
        stagedVelocity := some ⟨3, -9⟩
        animationFrameId := some 1
        nextFrameId := 2 }).gameState = GState.shooting ∧
    (∀ id, ({ initialState ⟨1000, 800⟩ with
        gameState := GState.ready
        stagedVelocity := some ⟨3, -9⟩
        animationFrameId := some 1
        nextFrameId := 2 } : AppState).animationFrameId = some id →
      id ∈ (fireShot { initialState ⟨1000, 800⟩ with
        gameState := GState.ready
        stagedVelocity := some ⟨3, -9⟩
        animationFrameId := some 1
        nextFrameId := 2 }).cancelledFrames) ∧
    (fireShot { initialState ⟨1000, 800⟩ with
        gameState := GState.ready
        stagedVelocity := some ⟨3, -9⟩
        animationFrameId := some 1
        nextFrameId := 2 }).animationFrameId =
      some ({ initialState ⟨1000, 800⟩ with
        gameState := GState.ready
        stagedVelocity := some ⟨3, -9⟩
        animationFrameId := some 1
        nextFrameId := 2 } : AppState).nextFrameId :=
  fire_commits_shot _ ⟨3, -9⟩ rfl

/-- C8: when the commentary collaborator rejects with any error, the
displayed message afterwards is the fixed fallback string; the handler is a
total function of the collaborator result, so the failure never propagates
to the caller; and the loading flag is false at the end of the operation
whether the call succeeded or failed. -/
theorem gemini_failure_fallback (s : AppState) (e : String) :
    (fetchGeminiReaction s (Except.error e)).geminiMessage =
      "Oops, Gemini is taking a timeout." ∧
    (∀ r : Except String String, (fetchGeminiReaction s r).isLoadingGemini = false) := by
  refine ⟨rfl, ?_⟩
  intro r
  rcases r with m | err <;> rfl

/-- C4: the above rim flag is sticky within a shot. A tick entered with the
flag true leaves it true regardless of the ball position; a tick whose
post bounce ball y lies above the rim line sets it true; firing a staged
shot clears it; and no controller event other than a fire request in ready
with a staged velocity ever turns it from true to false. -/
theorem wasAboveRim_sticky :
    (∀ (c : Court) (pos vel : Vec2), (updateGameState c pos vel true).wasAboveRim = true) ∧
    (∀ (c : Court) (pos vel : Vec2) (war : Bool), (postBounce c pos vel).1.y < RIM_Y_POS →
      (updateGameState c pos vel war).wasAboveRim = true) ∧
    (∀ (s : AppState) (v : Vec2), s.stagedVelocity = some v →
      (fireShot s).wasAboveRim = false) ∧
    (∀ (c : Court) (s : AppState) (e : Ev), s.wasAboveRim = true →
      (handleEvent c s e).wasAboveRim = false →
      s.gameState = GState.ready ∧ s.stagedVelocity ≠ none ∧
        ∃ k, e = Ev.key k ∧ (k = Key.keyX ∨ k = Key.keyC)) := by
  refine ⟨?_, ?_, ?_, ?_⟩
  · intro c pos vel
    rw [updateGameState_wasAboveRim_eq, nextWasAboveRim_true]
  · intro c pos vel war hy
    rw [updateGameState_wasAboveRim_eq]
    unfold nextWasAboveRim
    rw [if_pos hy]
  · intro s v h
    unfold fireShot
    rw [h, startGameLoop_wasAboveRim]
  · intro c s e htrue hfalse
    cases e with
    | key k =>
      revert hfalse
      show (onKeyDown c s k).wasAboveRim = false → _
      unfold onKeyDown
      split_ifs with h1 h2
      · intro hfalse
        exact flag_clash htrue (show s.wasAboveRim = false from hfalse)
      · rcases hsv : s.stagedVelocity with _ | v
        · rw [fireShot_none s hsv]
          intro hfalse
          exact flag_clash htrue hfalse
        · intro _
          exact ⟨h2.1, Option.some_ne_none v, k, rfl, h2.2⟩
      · intro hfalse
        exact flag_clash htrue hfalse
    | pointerDown p =>
      revert hfalse
      show (onPointerDown s p).wasAboveRim = false → _
      unfold onPointerDown onAimStart
      split_ifs with h1 <;> intro hfalse <;>
        exact flag_clash htrue (show s.wasAboveRim = false from hfalse)
    | pointerMove p =>
      revert hfalse
      show (onPointerMove s p).wasAboveRim = false → _
      unfold onPointerMove
      split_ifs with h1 <;> intro hfalse <;>
        exact flag_clash htrue (show s.wasAboveRim = false from hfalse)
    | pointerUp d =>
      revert hfalse
      show (onPointerUp s d).wasAboveRim = false → _
      unfold onPointerUp
      split_ifs with h1 <;> intro hfalse
      · exact flag_clash ((onAimEnd_wasAboveRim s d).trans htrue)
          (show (onAimEnd s d).wasAboveRim = false from hfalse)
      · exact flag_clash htrue hfalse
    | frame =>
      exact flag_clash (tick_wasAboveRim_true c s htrue)
        (show (tick c s).wasAboveRim = false from hfalse)
    | gemini r =>
      revert hfalse
      show (geminiResolve s r).wasAboveRim = false → _
      rcases r with m | err <;> intro hfalse <;>
        exact flag_clash htrue (show s.wasAboveRim = false from hfalse)
    | reset =>
      revert hfalse
      show (resetShot c s).wasAboveRim = false → _
      intro hfalse
      exact flag_clash htrue (show s.wasAboveRim = false from hfalse)

/-- C4 witness: concrete instances of the sticky flag statement: a tick
entered with the flag true keeps it, a tick above the rim line sets it, a
concrete fire clears it, and the only event clearing it from true is a
fire key in ready with a staged velocity. -/
theorem wasAboveRim_sticky_witness :
    (updateGameState ⟨1000, 800⟩ ⟨100, 700⟩ ⟨0, 0⟩ true).wasAboveRim = true ∧
    (updateGameState ⟨1000, 800⟩ ⟨100, 100⟩ ⟨0, 0⟩ false).wasAboveRim = true ∧
    (fireShot { initialState ⟨1000, 800⟩ with
        gameState := GState.ready
        stagedVelocity := some ⟨3, -9⟩
        wasAboveRim := true }).wasAboveRim = false ∧
    (({ initialState ⟨1000, 800⟩ with
        gameState := GState.ready
        stagedVelocity := some ⟨3, -9⟩
        wasAboveRim := true } : AppState).gameState = GState.ready ∧
      ({ initialState ⟨1000, 800⟩ with
        gameState := GState.ready
        stagedVelocity := some ⟨3, -9⟩
        wasAboveRim := true } : AppState).stagedVelocity ≠ none ∧
      ∃ k, Ev.key Key.keyX = Ev.key k ∧ (k = Key.keyX ∨ k = Key.keyC)) :=
  ⟨wasAboveRim_sticky.1 ⟨1000, 800⟩ ⟨100, 700⟩ ⟨0, 0⟩,
   wasAboveRim_sticky.2.1 ⟨1000, 800⟩ ⟨100, 100⟩ ⟨0, 0⟩ false
     (by norm_num [postBounce, integrate, floorBounce, wallBounce, GRAVITY, BALL_RADIUS,
       RIM_Y_POS, HOOP_POS, BACKBOARD_HEIGHT]),
   wasAboveRim_sticky.2.2.1 _ ⟨3, -9⟩ rfl,
   wasAboveRim_sticky.2.2.2 ⟨1000, 800⟩ _ (Ev.key Key.keyX) rfl rfl⟩

end Basketball
